import Mathlib

/-!
Verification of the ChronoRift battle engine
(`app/utils/battle_engine.py`) against its specification.

The Python code is shallowly embedded: Python `int` becomes `ℤ`,
Python `float` becomes `ℚ` (every numeric literal appearing in the
engine — 0.125, 0.5, 1.5, 0.1, … — is an exact rational, and all
claim-relevant computations stay exact), Python lists become `List`,
the status-effect strings `"name:duration"` stay `String`s, and code
that can raise returns `Except String`.  `random.random()` /
`random.uniform` draws are passed in as explicit `ℚ` parameters.
-/

/-- `EchoElement` enum from `app/utils/echo_generator.py`. -/
inductive EchoElement
  | fire
  | water
  | wind
  | earth
  | light
  | dark
  | neutral
  deriving DecidableEq, Repr

open EchoElement

/-- `TYPE_EFFECTIVENESS` matrix (attacker -> defender) from
`battle_engine.py`.  The Python dict has an entry for every pair of
elements, so it is embedded as a total function. -/
def TYPE_EFFECTIVENESS : EchoElement → EchoElement → ℚ
  | fire, fire => 1/2
  | fire, water => 1/2
  | fire, wind => 2
  | fire, earth => 2
  | fire, light => 1
  | fire, dark => 1
  | fire, neutral => 1
  | water, fire => 2
  | water, water => 1/2
  | water, wind => 1/2
  | water, earth => 2
  | water, light => 1
  | water, dark => 1
  | water, neutral => 1
  | wind, fire => 1/2
  | wind, water => 2
  | wind, wind => 1/2
  | wind, earth => 1/2
  | wind, light => 1
  | wind, dark => 1
  | wind, neutral => 1
  | earth, fire => 1/2
  | earth, water => 1/2
  | earth, wind => 2
  | earth, earth => 1/2
  | earth, light => 1
  | earth, dark => 1
  | earth, neutral => 1
  | light, fire => 1
  | light, water => 1
  | light, wind => 1
  | light, earth => 1
  | light, light => 1/2
  | light, dark => 2
  | light, neutral => 1
  | dark, fire => 1
  | dark, water => 1
  | dark, wind => 1
  | dark, earth => 1
  | dark, light => 2
  | dark, dark => 1/2
  | dark, neutral => 1
  | neutral, _ => 1

/-- Python `int(x)` on a float/rational: truncation toward zero. -/
def pytrunc (q : ℚ) : ℤ := if 0 ≤ q then ⌊q⌋ else ⌈q⌉

/-- Python `round(x)` on a float/rational: round half to even. -/
def pyround (q : ℚ) : ℤ :=
  let f := ⌊q⌋
  if q - f < 1/2 then f
  else if q - f > 1/2 then f + 1
  else if f % 2 = 0 then f else f + 1

/-- `EchoStats` dataclass from `echo_generator.py` (battle-relevant fields). -/
structure EchoStats where
  hp : ℤ
  atk : ℤ
  def_ : ℤ
  sp_atk : ℤ
  sp_def : ℤ
  spd : ℤ
  deriving DecidableEq, Repr

/-- Python `getattr(stats, name)` for the six stat attribute names. -/
def EchoStats.getattr (s : EchoStats) (name : String) : Option ℤ :=
  if name = "hp" then some s.hp
  else if name = "atk" then some s.atk
  else if name = "def_" then some s.def_
  else if name = "sp_atk" then some s.sp_atk
  else if name = "sp_def" then some s.sp_def
  else if name = "spd" then some s.spd
  else none

/-- Move dictionaries: every key the engine reads with `move.get(...)`
is an optional field (`none` models a missing key / `None` value). -/
structure Move where
  name : Option String
  type : Option String
  power : Option ℤ
  accuracy : Option ℤ
  element : Option EchoElement
  effect : Option String
  deriving DecidableEq, Repr

/-- `Echo` dataclass from `echo_generator.py` (battle-relevant fields). -/
structure Echo where
  name : String
  element : EchoElement
  level : ℤ
  base_stats : EchoStats
  current_stats : EchoStats
  moves : List Move
  deriving DecidableEq, Repr

/-- The `stat_modifiers` dict of `CombatantState`.  The dataclass default
gives it exactly the five keys `atk, def, sp_atk, sp_def, spd`, and the
engine only ever reads or writes those five, so it is embedded as a
record. -/
structure StatModifiers where
  atk : ℚ
  def_ : ℚ
  sp_atk : ℚ
  sp_def : ℚ
  spd : ℚ
  deriving DecidableEq, Repr

/-- Dataclass default: every multiplier starts at `1.0`. -/
def StatModifiers.init : StatModifiers := ⟨1, 1, 1, 1, 1⟩

/-- Python `stat_modifiers[key]` read access. -/
def StatModifiers.get (m : StatModifiers) (key : String) : Option ℚ :=
  if key = "atk" then some m.atk
  else if key = "def" then some m.def_
  else if key = "sp_atk" then some m.sp_atk
  else if key = "sp_def" then some m.sp_def
  else if key = "spd" then some m.spd
  else none

/-- Python `stat_modifiers[key] = v` write access (`none` for a key
outside the five stat names, which the engine never uses). -/
def StatModifiers.set (m : StatModifiers) (key : String) (v : ℚ) : Option StatModifiers :=
  if key = "atk" then some { m with atk := v }
  else if key = "def" then some { m with def_ := v }
  else if key = "sp_atk" then some { m with sp_atk := v }
  else if key = "sp_def" then some { m with sp_def := v }
  else if key = "spd" then some { m with spd := v }
  else none

/-- `CombatantState` dataclass from `battle_engine.py` (the `last_action`
bookkeeping field is not read by any engine operation and is omitted). -/
structure CombatantState where
  echo_id : String
  echo : Echo
  current_hp : ℤ
  status_effects : List String
  stat_modifiers : StatModifiers
  position : ℤ
  is_defeated : Bool
  deriving DecidableEq, Repr

/-- `DamageResult` dataclass from `battle_engine.py`. -/
structure DamageResult where
  base_damage : ℤ
  type_effectiveness : ℚ
  critical_hit : Bool
  final_damage : ℤ
  move_accuracy : ℚ
  hit : Bool
  deriving DecidableEq, Repr

/-- `CRITICAL_HIT_RATE = 0.05`. -/
def CRITICAL_HIT_RATE : ℚ := 1/20

/-- `CRITICAL_HIT_MULTIPLIER = 1.5`. -/
def CRITICAL_HIT_MULTIPLIER : ℚ := 3/2

/-- `MOVE_TYPE_SCALING` dict: `physical -> 'atk'`, `special -> 'sp_atk'`,
`status -> None`; any other key raises `KeyError` (outer `none`). -/
def MOVE_TYPE_SCALING (t : String) : Option (Option String) :=
  if t = "physical" then some (some "atk")
  else if t = "special" then some (some "sp_atk")
  else if t = "status" then some none
  else none

/-- Character-level worker for Python `str.split(':')`. -/
def splitOnColonChars : List Char → List (List Char)
  | [] => [[]]
  | c :: rest =>
    match splitOnColonChars rest with
    | [] => [[c]]
    | h :: t => if c = ':' then [] :: h :: t else (c :: h) :: t

/-- Models Python `s.split(':')`. -/
def pysplit_colon (s : String) : List String :=
  (splitOnColonChars s.data).map String.mk

/-- Accumulating decimal-digit reader used to model Python `int(s)`. -/
def parseDigitsAux : List Char → ℕ → Option ℕ
  | [], acc => some acc
  | c :: rest, acc =>
    if '0' ≤ c ∧ c ≤ '9' then parseDigitsAux rest (acc * 10 + (c.toNat - '0'.toNat))
    else none

/-- Models Python `int(s)` on the strings the engine itself produces
(an optional sign followed by decimal digits; anything else raises
`ValueError`, modelled as `none`). -/
def pyint (s : String) : Option ℤ :=
  match s.data with
  | [] => none
  | '-' :: rest =>
    if rest = [] then none else (parseDigitsAux rest 0).map (fun n => -(n : ℤ))
  | l => (parseDigitsAux l 0).map (fun n => (n : ℤ))

/-- Fuel-bounded decimal digit printer (`fuel ≥ number of digits`). -/
def natDigitsAux : ℕ → ℕ → List Char
  | 0, _ => []
  | fuel + 1, n =>
    if n < 10 then [Char.ofNat (48 + n)]
    else natDigitsAux fuel (n / 10) ++ [Char.ofNat (48 + n % 10)]

/-- Models Python `str(n)` / f-string formatting of an int. -/
def pystr_int (n : ℤ) : String :=
  if n < 0 then "-" ++ String.mk (natDigitsAux ((-n).toNat + 1) (-n).toNat)
  else String.mk (natDigitsAux (n.toNat + 1) n.toNat)

/-- Level/attack/defense part of the damage formula:
`(2*L/5 + 2)/250 * (atk / max(1, def)) * power + 2`. -/
def raw_base_damage (level atk_stat def_stat move_power : ℤ) : ℚ :=
  ((2 * (level : ℚ) / 5 + 2) / 250) *
    ((atk_stat : ℚ) / ((max 1 def_stat : ℤ) : ℚ)) * (move_power : ℚ) + 2

/-- Final damage of a connecting hit in `calculate_damage`:
`max(1, int(base * effectiveness * stab * critical_mult * roll))`. -/
def hit_final (base eff stab crit roll : ℚ) : ℤ :=
  max 1 (pytrunc (base * eff * stab * crit * roll))

/-- Modelled from the spec: the spec states the final damage of a hit as
`max(1, round(base * effectiveness * stab * critical_mult * roll))`,
with `round` in place of the code's `int` truncation.  Defined only to
compare against `hit_final`. -/
def spec_hit_final (base eff stab crit roll : ℚ) : ℤ :=
  max 1 (pyround (base * eff * stab * crit * roll))

/-- `BattleEngine.calculate_damage`.  The three `random` draws
(`random.random()` for the critical check, `random.uniform(0.85, 1.0)`
for the damage roll, `random.random()` for the accuracy check) are
passed in as explicit parameters `critDraw`, `roll`, `hitDraw`. -/
def calculate_damage (attacker defender : Echo) (move : Move)
    (stat_modifiers_atk stat_modifiers_def : StatModifiers)
    (critDraw roll hitDraw : ℚ) : Except String DamageResult :=
  let move_type := move.type.getD "physical"
  let move_power := move.power.getD 0
  let accuracy := move.accuracy.getD 100
  if move_type = "status" then
    Except.ok
      { base_damage := 0
        type_effectiveness := 1
        critical_hit := false
        final_damage := 0
        move_accuracy := (accuracy : ℚ) / 100
        hit := true }
  else
    match MOVE_TYPE_SCALING move_type with
    | none => Except.error "KeyError"
    | some none => Except.error "TypeError"
    | some (some stat_type) =>
      match attacker.current_stats.getattr stat_type with
      | none => Except.error "AttributeError"
      | some atk_stat0 =>
        let def_stat0 : ℤ :=
          if stat_type = "atk" then defender.current_stats.def_
          else defender.current_stats.sp_def
        match stat_modifiers_atk.get stat_type,
            stat_modifiers_def.get (if stat_type = "sp_atk" then "sp_def" else "def") with
        | some am, some dm =>
          let atk_stat := pytrunc ((atk_stat0 : ℚ) * am)
          let def_stat := pytrunc ((def_stat0 : ℚ) * dm)
          let base_damage := raw_base_damage attacker.level atk_stat def_stat move_power
          let type_effectiveness := TYPE_EFFECTIVENESS attacker.element defender.element
          let stab : ℚ := if move.element = some attacker.element then 3/2 else 1
          let is_critical := decide (critDraw < CRITICAL_HIT_RATE)
          let critical_mult : ℚ := if is_critical then CRITICAL_HIT_MULTIPLIER else 1
          let hit_chance := (accuracy : ℚ) / 100
          let hit := decide (hitDraw < hit_chance)
          let final_damage :=
            if hit then hit_final base_damage type_effectiveness stab critical_mult roll
            else 0
          Except.ok
            { base_damage := pytrunc base_damage
              type_effectiveness := type_effectiveness
              critical_hit := is_critical
              final_damage := final_damage
              move_accuracy := hit_chance
              hit := hit }
        | _, _ => Except.error "KeyError"

/-- `BattleEngine.apply_status_effect` (default `duration = 3` is passed
explicitly at call sites).  Returns the bool result together with the
updated combatant. -/
def apply_status_effect (target : CombatantState) (effect : String) (duration : ℤ) :
    Bool × CombatantState :=
  if effect ∈ target.status_effects then (false, target)
  else
    (true,
      { target with status_effects :=
          target.status_effects ++ [effect ++ ":" ++ pystr_int duration] })

/-- Body of the `for effect_str in combatant.status_effects` loop of
`BattleEngine.update_status_effects`: split the entry, decrement the
duration, apply burn/poison damage or the paralysis speed penalty, and
keep the entry when the remaining duration is positive. -/
def tick_effect (acc : CombatantState × List String) (effect_str : String) :
    Except String (CombatantState × List String) :=
  match pysplit_colon effect_str with
  | [effect_name, duration_str] =>
    match pyint duration_str with
    | none => Except.error "ValueError"
    | some d0 =>
      let duration := d0 - 1
      let c := acc.1
      let dotDamage : ℤ := pytrunc ((c.echo.base_stats.hp : ℚ) * (1/8))
      let c :=
        if effect_name = "burn" then
          { c with current_hp := max 0 (c.current_hp - dotDamage) }
        else if effect_name = "poison" then
          { c with current_hp := max 0 (c.current_hp - dotDamage) }
        else if effect_name = "paralysis" then
          { c with stat_modifiers :=
              { c.stat_modifiers with spd := c.stat_modifiers.spd * (1/2) } }
        else c
      let acts :=
        if duration > 0 then acc.2 ++ [effect_name ++ ":" ++ pystr_int duration]
        else acc.2
      Except.ok (c, acts)
  | _ => Except.error "ValueError"

/-- `BattleEngine.update_status_effects`: fold `tick_effect` over the
active effects, then replace the effect list with the survivors. -/
def update_status_effects (combatant : CombatantState) : Except String CombatantState :=
  (combatant.status_effects.foldlM tick_effect (combatant, [])).map
    (fun p => { p.1 with status_effects := p.2 })

/-- The `stage_multipliers` dict inside `BattleEngine.modify_stat`
(keys `-6 .. 6`; `none` models `KeyError` for any other key).  The
Python float literals `0.29, 0.33, 0.43, 0.67` are read as the exact
decimals. -/
def stage_multipliers (stage : ℤ) : Option ℚ :=
  if stage = -6 then some (1/4)
  else if stage = -5 then some (29/100)
  else if stage = -4 then some (33/100)
  else if stage = -3 then some (43/100)
  else if stage = -2 then some (1/2)
  else if stage = -1 then some (67/100)
  else if stage = 0 then some 1
  else if stage = 1 then some (3/2)
  else if stage = 2 then some 2
  else if stage = 3 then some (5/2)
  else if stage = 4 then some 3
  else if stage = 5 then some (7/2)
  else if stage = 6 then some 4
  else none

/-- `BattleEngine.modify_stat`: clamp the `stages` argument to
`[-6, 6]`, look the clamped value up in the stage table, and overwrite
the combatant's stored multiplier for `stat` with the table value. -/
def modify_stat (combatant : CombatantState) (stat : String) (stages : ℤ) :
    Except String CombatantState :=
  let stages := max (-6) (min 6 stages)
  match stage_multipliers stages with
  | none => Except.error "KeyError"
  | some mult =>
    match combatant.stat_modifiers.set stat mult with
    | none => Except.error "KeyError"
    | some sm => Except.ok { combatant with stat_modifiers := sm }

/-- Score of a `(move, target)` pair in `BattleEngine.ai_choose_move`:
`power * type_effectiveness * accuracy - (hp / max(1, max_hp)) * 20`. -/
def ai_score (attacker : CombatantState) (move : Move) (target : CombatantState) : ℚ :=
  let type_eff := TYPE_EFFECTIVENESS attacker.echo.element target.echo.element
  let base_power := move.power.getD 20
  let accuracy := (move.accuracy.getD 100 : ℚ) / 100
  let target_hp_share :=
    (target.current_hp : ℚ) / ((max 1 target.echo.base_stats.hp : ℤ) : ℚ)
  (base_power : ℚ) * type_eff * accuracy - target_hp_share * 20

/-- The best-scoring `(move, target)` search of `ai_choose_move`:
iterate moves, then targets, keeping the strictly best score, starting
from `(None, None, -999)`. -/
def ai_best (attacker : CombatantState) (alive_targets : List CombatantState) :
    Option Move × Option CombatantState × ℚ :=
  attacker.echo.moves.foldl
    (fun acc move =>
      alive_targets.foldl
        (fun acc target =>
          let score := ai_score attacker move target
          if score > acc.2.2 then (some move, some target, score) else acc)
        acc)
    (none, none, -999)

/-- `BattleEngine.ai_choose_move`.  List indexing `xs[0]` is modelled
with `head?` (`none` raises `IndexError`); the final `best_move or
moves[0]` / `best_target or alive_targets[0]` use Python's
`None`-coalescing reading of `or`. -/
def ai_choose_move (attacker : CombatantState) (defenders : List CombatantState) :
    Except String (Move × CombatantState) :=
  let alive_targets := defenders.filter (fun d => !d.is_defeated)
  if alive_targets.isEmpty then
    match attacker.echo.moves.head?, alive_targets.head? with
    | none, _ => Except.error "IndexError"
    | some _, none => Except.error "IndexError"
    | some m, some t => Except.ok (m, t)
  else
    let best := ai_best attacker alive_targets
    match
      (match best.1 with
       | some m => some m
       | none => attacker.echo.moves.head?),
      (match best.2.1 with
       | some t => some t
       | none => alive_targets.head?) with
    | some m, some t => Except.ok (m, t)
    | _, _ => Except.error "IndexError"

/-- `BattleEngine.is_battle_finished`: team 1 is `combatants[:n//2]`,
team 2 is `combatants[n//2:]`; the battle is over when either team is
entirely defeated (`all` of an empty list is `True`, as in Python). -/
def is_battle_finished (combatants : List CombatantState) : Bool :=
  let n := combatants.length
  (combatants.take (n / 2)).all (fun c => c.is_defeated) ||
    (combatants.drop (n / 2)).all (fun c => c.is_defeated)

/-- Result dict of `calculate_battle_rewards`. -/
structure BattleRewards where
  experience : ℤ
  currency : ℤ
  bonus_multiplier : ℚ
  deriving DecidableEq, Repr

/-- `calculate_battle_rewards` from `battle_engine.py`. -/
def calculate_battle_rewards (winner : CombatantState) (losers : List CombatantState) :
    BattleRewards :=
  let base_exp : ℤ := 100
  let base_currency : ℤ := 50
  let totals := losers.foldl
    (fun (acc : ℤ × ℤ) loser =>
      let level_diff : ℤ := loser.echo.level - winner.echo.level
      let exp_mult : ℚ := max (1/2) (1 + (level_diff : ℚ) * (1/10))
      let exp_gained := pytrunc (((base_exp + loser.echo.level * 2 : ℤ) : ℚ) * exp_mult)
      let currency_gained := pytrunc (((base_currency + loser.echo.level : ℤ) : ℚ) * exp_mult)
      (acc.1 + exp_gained, acc.2 + currency_gained))
    (0, 0)
  { experience := totals.1
    currency := totals.2
    bonus_multiplier := 1 + ((losers.length : ℚ) - 1) * (1/10) }

/-! Concrete sample data used to evaluate the engine at specific inputs. -/

/-- A physical move with power 100 and accuracy 100. -/
def physMove100 : Move :=
  { name := some "Strike", type := some "physical", power := some 100,
    accuracy := some 100, element := none, effect := none }

/-- Flat stat line with attack 100 and defense 100. -/
def neutralStats : EchoStats := ⟨45, 100, 100, 40, 40, 35⟩

/-- Level-5 neutral echo with `neutralStats`. -/
def exAttackerEcho : Echo :=
  { name := "Attacker", element := EchoElement.neutral, level := 5,
    base_stats := neutralStats, current_stats := neutralStats,
    moves := [physMove100] }

/-- Level-5 neutral echo used as defender. -/
def exDefenderEcho : Echo :=
  { name := "Defender", element := EchoElement.neutral, level := 5,
    base_stats := neutralStats, current_stats := neutralStats,
    moves := [physMove100] }

/-- Combatant with fresh stat modifiers at the given hp / effects /
defeated flag. -/
def mkCombatant (id : String) (e : Echo) (hp : ℤ) (effects : List String)
    (defeated : Bool) : CombatantState :=
  { echo_id := id, echo := e, current_hp := hp, status_effects := effects,
    stat_modifiers := StatModifiers.init, position := 0, is_defeated := defeated }

/-- Combatant A of the C1 scenario, after being defeated. -/
def battleA : CombatantState := mkCombatant "A" exAttackerEcho 0 [] true

/-- Combatant B of the C1 scenario, alive at 100 HP. -/
def battleB : CombatantState := mkCombatant "B" exAttackerEcho 100 [] false

/-- Combatant C of the C1 scenario, alive at 100 HP. -/
def battleC : CombatantState := mkCombatant "C" exDefenderEcho 100 [] false

/-- Combatant that already carries an active burn (stored as `"burn:3"`). -/
def burnedTarget : CombatantState := mkCombatant "T" exDefenderEcho 40 ["burn:3"] false

/-- Stat line with only 8 max HP, so one burn tick deals exactly 1 damage. -/
def frailStats : EchoStats := ⟨8, 10, 10, 10, 10, 10⟩

/-- Echo built on `frailStats`. -/
def frailEcho : Echo :=
  { name := "Frail", element := EchoElement.neutral, level := 5,
    base_stats := frailStats, current_stats := frailStats,
    moves := [physMove100] }

/-- Combatant at 1 HP carrying a burn: the next tick brings it to 0 HP. -/
def burnVictim : CombatantState := mkCombatant "V" frailEcho 1 ["burn:3"] false

/-- Combatant carrying an active paralysis with 3 turns left. -/
def paraCombatant : CombatantState :=
  mkCombatant "P" exDefenderEcho 40 ["paralysis:3"] false

/-- AI-controlled attacker with one move. -/
def aiAttacker : CombatantState := mkCombatant "ai" exAttackerEcho 45 [] false

/-- A defeated candidate target. -/
def deadDefender : CombatantState := mkCombatant "D" exDefenderEcho 0 [] true

/-- Combatant with fresh (all `1.0`) stat modifiers. -/
def freshCombatant : CombatantState := mkCombatant "F" exAttackerEcho 45 [] false

/-- Level-20 neutral echo for the reward scenario. -/
def lvl20Echo : Echo :=
  { name := "L20", element := EchoElement.neutral, level := 20,
    base_stats := neutralStats, current_stats := neutralStats,
    moves := [physMove100] }

/-- Level-20 winner of the reward scenario. -/
def winner20 : CombatantState := mkCombatant "W" lvl20Echo 45 [] false

/-- Level-20 loser of the reward scenario. -/
def loser20 : CombatantState := mkCombatant "L" lvl20Echo 0 [] true

/-! Theorems settling the claims. -/

/-- Ground evaluation facts for the status-effect string helpers. -/
lemma pysplit_colon_burn3 : pysplit_colon "burn:3" = ["burn", "3"] := rfl

lemma pysplit_colon_para3 : pysplit_colon "paralysis:3" = ["paralysis", "3"] := rfl

lemma pysplit_colon_para2 : pysplit_colon "paralysis:2" = ["paralysis", "2"] := rfl

lemma pyint_two : pyint "2" = some 2 := rfl

lemma pyint_three : pyint "3" = some 3 := rfl

lemma pystr_int_one : pystr_int 1 = "1" := rfl

lemma pystr_int_two : pystr_int 2 = "2" := rfl

lemma pystr_int_three : pystr_int 3 = "3" := rfl

lemma append_para2 : "paralysis" ++ ":" ++ "2" = "paralysis:2" := rfl

lemma append_para1 : "paralysis" ++ ":" ++ "1" = "paralysis:1" := rfl

lemma append_burn2 : "burn" ++ ":" ++ "2" = "burn:2" := rfl

/-- Claim C1 counterexample: in the three-combatant battle laid out as
`[A, B, C]` with A defeated and B, C alive, `is_battle_finished`
returns `true`, not `false` as claimed: with `n = 3` the first team is
`combatants[:1] = [A]` alone. -/
theorem is_battle_finished_one_defeated_of_three :
    is_battle_finished [battleA, battleB, battleC] = true := by
  simp [is_battle_finished, battleA, battleB, battleC, mkCombatant]

/-- Claim C1 (corrected): once A (the head of the three-combatant list)
is defeated, `is_battle_finished` returns `true` regardless of the
other two combatants, because the `len // 2` split makes the first
side the singleton `[A]`. -/
theorem is_battle_finished_three_first_half_singleton
    (b c : CombatantState) :
    is_battle_finished [battleA, b, c] = true := by
  simp [is_battle_finished, battleA, mkCombatant]

/-- Claim C2 (code_bug): `apply_status_effect` stores effects as
`"name:duration"` but checks for duplicates by comparing the bare
name against those strings, so a combatant already carrying
`"burn:3"` accepts a second burn: the call returns `true` and the
effect list gains a duplicate entry, contradicting the function's own
"Prevent duplicate status effects" comment. -/
theorem apply_status_effect_duplicate_stacks :
    apply_status_effect burnedTarget "burn" 3 =
      (true, { burnedTarget with status_effects := ["burn:3", "burn:3"] }) := by
  simp [apply_status_effect, burnedTarget, mkCombatant, pystr_int_three]

/-- Claim C4 (code_bug): a burn tick that reduces a combatant's HP to 0
leaves `is_defeated = false`: `update_status_effects` never sets the
flag, so the invariant `current_hp = 0 → is_defeated` is not preserved
by the status tick. -/
theorem update_status_effects_zero_hp_not_defeated :
    (update_status_effects burnVictim).toOption.map
        (fun c => (c.current_hp, c.is_defeated)) = some (0, false) := by
  norm_num [update_status_effects, tick_effect, burnVictim, mkCombatant, frailEcho,
    frailStats, pysplit_colon_burn3, pyint_three, pystr_int_two, pytrunc,
    Except.map, Except.toOption]

/-- Claim C7 (code_bug): when every candidate target is defeated, the
"failsafe" branch of `ai_choose_move` indexes the empty filtered list
(`alive_targets[0]`) and raises `IndexError` instead of returning the
first move and first target. -/
theorem ai_choose_move_all_defeated_raises :
    ai_choose_move aiAttacker [deadDefender] = Except.error "IndexError" := by
  simp [ai_choose_move, aiAttacker, deadDefender, mkCombatant, exAttackerEcho]

/-- Claim C8 (confirmed): the type-effectiveness lookup is total over
every element pair (it is a total function), always yields one of
`{0.5, 1.0, 2.0}`, and agrees with the fixed table at `fire -> wind`
(2.0) and `wind -> fire` (0.5). -/
theorem TYPE_EFFECTIVENESS_total_values :
    (∀ a d : EchoElement,
      TYPE_EFFECTIVENESS a d = 1/2 ∨ TYPE_EFFECTIVENESS a d = 1 ∨
        TYPE_EFFECTIVENESS a d = 2) ∧
    TYPE_EFFECTIVENESS EchoElement.fire EchoElement.wind = 2 ∧
    TYPE_EFFECTIVENESS EchoElement.wind EchoElement.fire = 1/2 := by
  refine ⟨fun a d => ?_, rfl, rfl⟩
  cases a <;> cases d <;> simp [TYPE_EFFECTIVENESS]

/-- Claim C9 (confirmed): a level-20 winner over a single level-20 loser
earns experience 140, currency 70, bonus multiplier 1.0, per the
per-loser formula `exp_mult = max(0.5, 1 + level_diff * 0.1)`,
`exp = (100 + 2 * level) * exp_mult`, `currency = (50 + level) * exp_mult`. -/
theorem calculate_battle_rewards_level20 :
    calculate_battle_rewards winner20 [loser20] =
      { experience := 140, currency := 70, bonus_multiplier := 1 } := by
  norm_num [calculate_battle_rewards, winner20, loser20, mkCombatant, lvl20Echo, pytrunc]

/-- Claim C10 (confirmed): with an empty losers list the rewards are
0 experience and 0 currency, but the bonus multiplier
`1 + (count - 1) * 0.1` evaluates to `0.9` at count 0. -/
theorem calculate_battle_rewards_empty_losers (winner : CombatantState) :
    calculate_battle_rewards winner [] =
      { experience := 0, currency := 0, bonus_multiplier := 9/10 } := by
  norm_num [calculate_battle_rewards]

/-- Claim C5 counterexample: two successive `modify_stat` calls with
delta `+2` on a fresh combatant leave the attack multiplier at `2.0`
(the stage-2 value), not at the claimed stage-4 value `3.0`: the
combatant stores no stage, so calls overwrite instead of accumulating. -/
theorem modify_stat_no_accumulation :
    ((modify_stat freshCombatant "atk" 2).bind
        (fun x => modify_stat x "atk" 2)).toOption.map
      (fun x => x.stat_modifiers.atk) = some 2 ∧ (2 : ℚ) ≠ 3 := by
  norm_num [modify_stat, stage_multipliers, StatModifiers.set, freshCombatant,
    mkCombatant, StatModifiers.init, Except.bind, Except.toOption]

/-- Claim C5 (corrected): `modify_stat` clamps its `stages` argument to
`[-6, 6]` and overwrites the stat's multiplier with the stage-table
value of the clamped argument (table: 0 -> 1.0, +6 -> 4.0,
-6 -> 0.25); there is no stored stage, so successive calls do not
accumulate — two `+2` calls leave the multiplier at 2.0. -/
theorem modify_stat_spec :
    stage_multipliers 0 = some 1 ∧
    stage_multipliers 6 = some 4 ∧
    stage_multipliers (-6) = some (1/4) ∧
    (∀ (c : CombatantState) (stat : String) (stages : ℤ),
      modify_stat c stat stages = modify_stat c stat (max (-6) (min 6 stages))) ∧
    (∀ (c c' c'' : CombatantState),
      modify_stat c "atk" 2 = Except.ok c' →
      modify_stat c' "atk" 2 = Except.ok c'' →
      c''.stat_modifiers.atk = 2) := by
  refine ⟨by norm_num [stage_multipliers], by norm_num [stage_multipliers],
    by norm_num [stage_multipliers], ?_, ?_⟩
  · intro c stat s
    simp only [modify_stat]
    rw [show max (-6) (min 6 (max (-6) (min 6 s))) = max (-6) (min 6 s) by omega]
  · intro c c' c'' h1 h2
    norm_num [modify_stat, stage_multipliers, StatModifiers.set] at h1 h2
    rw [← h2]

/-- Claim C5 witness: instantiating `modify_stat_spec` on a concrete
fresh combatant and two concrete `+2` calls. -/
theorem modify_stat_spec_witness :
    ({ freshCombatant with
        stat_modifiers := ⟨2, 1, 1, 1, 1⟩ } : CombatantState).stat_modifiers.atk = 2 :=
  modify_stat_spec.2.2.2.2 freshCombatant
    { freshCombatant with stat_modifiers := ⟨2, 1, 1, 1, 1⟩ }
    { freshCombatant with stat_modifiers := ⟨2, 1, 1, 1, 1⟩ }
    (by norm_num [modify_stat, stage_multipliers, StatModifiers.set, freshCombatant,
      mkCombatant, StatModifiers.init])
    (by norm_num [modify_stat, stage_multipliers, StatModifiers.set, freshCombatant,
      mkCombatant, StatModifiers.init])

/-- Claim C6 counterexample: two consecutive status ticks with paralysis
active leave the stored speed multiplier at `0.25`, not at its
pre-paralysis value `1.0`: the `*= 0.5` penalty persists and compounds. -/
theorem paralysis_two_ticks_quarter :
    ((update_status_effects paraCombatant).bind update_status_effects).toOption.map
        (fun c => c.stat_modifiers.spd) = some (1/4) ∧ (1/4 : ℚ) ≠ 1 := by
  simp [update_status_effects, tick_effect, paraCombatant, mkCombatant,
    StatModifiers.init, pysplit_colon_para3, pysplit_colon_para2, pyint_two,
    pyint_three, pystr_int_one, pystr_int_two, append_para2, append_para1,
    Except.map, Except.toOption, Except.bind]
  norm_num

/-- Claim C6 (corrected): each status tick on a combatant whose active
effect list is `["paralysis:3"]` multiplies the *stored* speed
multiplier by 0.5 persistently, so two consecutive ticks leave it at
0.25 times its pre-paralysis value (rather than restoring it). -/
theorem paralysis_tick_halves_speed (c : CombatantState)
    (h : c.status_effects = ["paralysis:3"]) :
    ∃ c', (update_status_effects c).bind update_status_effects = Except.ok c' ∧
      c'.stat_modifiers.spd = c.stat_modifiers.spd * (1/4) ∧
      c'.status_effects = ["paralysis:1"] := by
  refine ⟨{ c with
      stat_modifiers := { c.stat_modifiers with spd := c.stat_modifiers.spd * (1/2) * (1/2) },
      status_effects := ["paralysis:1"] }, ?_, by ring, rfl⟩
  simp [update_status_effects, tick_effect, h, pysplit_colon_para3,
    pysplit_colon_para2, pyint_two, pyint_three, pystr_int_one, pystr_int_two,
    append_para2, append_para1, Except.map, Except.bind]

/-- Claim C6 witness: instantiating `paralysis_tick_halves_speed` on the
concrete paralysed combatant. -/
theorem paralysis_tick_halves_speed_witness :
    ((update_status_effects paraCombatant).bind update_status_effects).toOption.map
        (fun c => c.stat_modifiers.spd) = some ((1 : ℚ) * (1/4)) := by
  obtain ⟨c', hc, hs, _⟩ := paralysis_tick_halves_speed paraCombatant rfl
  rw [hc]
  simp [Except.toOption, hs, paraCombatant, mkCombatant, StatModifiers.init]

/-- Ground evaluation of `calculate_damage` on the sample scenario:
level-5 attacker with attack 100, defender with defense 100, physical
move of power 100 and accuracy 100, no critical (`critDraw = 1`),
maximal roll (`roll = 1`), accuracy draw 0 (a guaranteed hit).  The
un-truncated damage product is `18/5 = 3.6` and the code truncates it
to 3; result fields are `(base_damage, type_effectiveness,
critical_hit, final_damage, move_accuracy, hit)`. -/
lemma calc_damage_example :
    calculate_damage exAttackerEcho exDefenderEcho physMove100
      StatModifiers.init StatModifiers.init 1 1 0 =
      Except.ok ⟨3, 1, false, 3, 1, true⟩ := by
  simp [calculate_damage, exAttackerEcho, exDefenderEcho, physMove100, neutralStats,
    MOVE_TYPE_SCALING, EchoStats.getattr, StatModifiers.get, StatModifiers.init,
    raw_base_damage, hit_final, TYPE_EFFECTIVENESS, CRITICAL_HIT_RATE,
    CRITICAL_HIT_MULTIPLIER, pytrunc]
  norm_num

/-- Claim C3 counterexample: on the sample scenario the damage product
is `3.6`; the code's final damage is `max(1, int(3.6)) = 3`, while the
claimed formula `max(1, round(3.6))` gives 4, so
`final_damage = max(1, round(base * eff * stab * crit * roll))` fails
at this input. -/
theorem calculate_damage_trunc_ne_spec_round :
    (calculate_damage exAttackerEcho exDefenderEcho physMove100
        StatModifiers.init StatModifiers.init 1 1 0).toOption.map
      DamageResult.final_damage = some 3 ∧
    spec_hit_final (raw_base_damage 5 100 100 100) 1 1 1 1 = 4 ∧
    (3 : ℤ) ≠ 4 := by
  refine ⟨?_, ?_, by norm_num⟩
  · rw [calc_damage_example]; rfl
  · norm_num [spec_hit_final, pyround, raw_base_damage]

/-- Claim C3 (corrected): when a non-status move hits,
`calculate_damage` returns
`final_damage = max(1, int(base * effectiveness * stab * critical_mult
* roll))` — `int()` truncation, not `round` — and in particular
`final_damage ≥ 1`; when the move misses or is a status move,
`final_damage = 0`. -/
theorem calculate_damage_final_damage_spec
    (attacker defender : Echo) (move : Move)
    (smA smD : StatModifiers) (critDraw roll hitDraw : ℚ)
    (dr : DamageResult)
    (hres : calculate_damage attacker defender move smA smD critDraw roll hitDraw =
      Except.ok dr) :
    (move.type.getD "physical" = "status" → dr.final_damage = 0 ∧ dr.hit = true) ∧
    (dr.hit = false → dr.final_damage = 0) ∧
    (move.type.getD "physical" ≠ "status" → dr.hit = true →
      1 ≤ dr.final_damage ∧
      ∃ st atk0 am dm,
        MOVE_TYPE_SCALING (move.type.getD "physical") = some (some st) ∧
        attacker.current_stats.getattr st = some atk0 ∧
        smA.get st = some am ∧
        smD.get (if st = "sp_atk" then "sp_def" else "def") = some dm ∧
        dr.final_damage =
          hit_final
            (raw_base_damage attacker.level (pytrunc ((atk0 : ℚ) * am))
              (pytrunc (((if st = "atk" then defender.current_stats.def_
                else defender.current_stats.sp_def) : ℤ) * (dm : ℚ)))
              (move.power.getD 0))
            (TYPE_EFFECTIVENESS attacker.element defender.element)
            (if move.element = some attacker.element then 3/2 else 1)
            (if critDraw < CRITICAL_HIT_RATE then CRITICAL_HIT_MULTIPLIER else 1)
            roll) := by
  simp only [calculate_damage] at hres
  split at hres
  case isTrue hmt =>
    obtain rfl : _ = dr := Except.ok.inj hres
    exact ⟨fun _ => ⟨rfl, rfl⟩, by simp, fun hns _ => absurd hmt hns⟩
  case isFalse hmt =>
    split at hres
    case h_1 => exact absurd hres (by simp)
    case h_2 => exact absurd hres (by simp)
    case h_3 st hscal =>
      split at hres
      case h_1 => exact absurd hres (by simp)
      case h_2 atk0 hatk =>
        split at hres
        case h_2 => exact absurd hres (by simp)
        case h_1 am dm ham hdm =>
          obtain rfl : _ = dr := Except.ok.inj hres
          refine ⟨fun hs => absurd hs hmt, ?_, fun _ hhit => ⟨?_, ?_⟩⟩
          · intro hf
            simp only at hf
            simp [hf]
          · simp only at hhit
            simp [hhit, hit_final, le_max_iff]
          · refine ⟨st, atk0, am, dm, hscal, hatk, ham, hdm, ?_⟩
            simp only at hhit
            simp [hhit, hit_final]

/-- Claim C3 witness: instantiating `calculate_damage_final_damage_spec`
on the concrete sample scenario, whose damage result is
`⟨3, 1, false, 3, 1, true⟩`. -/
theorem calculate_damage_final_damage_spec_witness :
    1 ≤ (⟨3, 1, false, 3, 1, true⟩ : DamageResult).final_damage := by
  have h := calculate_damage_final_damage_spec exAttackerEcho exDefenderEcho physMove100
    StatModifiers.init StatModifiers.init 1 1 0 ⟨3, 1, false, 3, 1, true⟩
    calc_damage_example
  exact (h.2.2 (by simp [physMove100]) rfl).1

/-- Claim C1 witness: instantiating
`is_battle_finished_three_first_half_singleton` with concrete B and C
combatants (in swapped order). -/
theorem is_battle_finished_three_witness :
    is_battle_finished [battleA, battleC, battleB] = true :=
  is_battle_finished_three_first_half_singleton battleC battleB

/-- Claim C10 witness: instantiating
`calculate_battle_rewards_empty_losers` at a concrete winner. -/
theorem calculate_battle_rewards_empty_losers_witness :
    calculate_battle_rewards winner20 [] =
      { experience := 0, currency := 0, bonus_multiplier := 9/10 } :=
  calculate_battle_rewards_empty_losers winner20
